import Mathlib

/-!
Verification of the Adaptive Session Engine of an assessment platform.

The definitions below are a shallow embedding of the TypeScript source:
JavaScript numbers are modelled as rationals (difficulty levels, which the
source declares as the integer union 1..5, as integers), fallible handlers
return Except, and the clock is passed as an explicit parameter.  The
falsy-coalescing idiom x || d of JavaScript is modelled by the jsOr
helpers, and Math.round by jsRound (floor of x + 1/2, which is how
JavaScript rounds halves).
-/

/-- The six knowledge areas of the platform (enum KnowledgeArea). -/
inductive KnowledgeArea where
  | PROGRAMMING_LANGUAGE
  | ALGORITHMS_DATA_STRUCTURES
  | ANALYTICAL_REASONING
  | QUANTITATIVE_MATH
  | SYSTEM_SCENARIO_DESIGN
  | PSYCHOMETRIC_BEHAVIORAL
deriving DecidableEq, Repr

/-- Seniority tiers of a target role (enum SeniorityLevel). -/
inductive SeniorityLevel where
  | JUNIOR
  | MID
  | SENIOR
  | LEAD
deriving DecidableEq, Repr

/-- Session lifecycle status (string union in the source). -/
inductive SessionStatus where
  | IN_PROGRESS
  | COMPLETED
  | ABANDONED
deriving DecidableEq, Repr

/-- A JavaScript value of type string or string[], as used for answers. -/
inductive AnswerValue where
  | str (s : String)
  | arr (l : List String)
deriving DecidableEq, Repr

/-- One entry of the answer log (interface QuestionResponse). -/
structure QuestionResponse where
  questionId : String
  knowledgeArea : KnowledgeArea
  difficulty : ℤ
  answer : AnswerValue
  isCorrect : Bool
  timeSpentSeconds : ℚ
  answeredAt : String
deriving DecidableEq, Repr

/-- One entry of the knowledge-area mix (interface KnowledgeAreaConfig). -/
structure KnowledgeAreaConfig where
  area : KnowledgeArea
  percentage : ℚ
  programmingLanguage : Option String := none
deriving DecidableEq, Repr

/-- The target role of an assessment (interface TargetRole). -/
structure TargetRole where
  name : String
  seniorityLevel : SeniorityLevel
deriving DecidableEq, Repr

/-- An assessment document (interface Assessment).  The passThreshold field
is read by the scoring engine through the falsy-coalescing idiom, hence an
Option here. -/
structure Assessment where
  assessmentId : String
  tenantId : String
  title : String
  description : Option String := none
  targetRole : TargetRole
  knowledgeAreaMix : List KnowledgeAreaConfig
  initialDifficulty : ℤ
  durationMinutes : Option ℚ := none
  maxQuestions : Option ℚ := none
  passThreshold : Option ℚ := none
  createdAt : String
  updatedAt : String
  createdBy : String
  isActive : Bool
deriving Repr

/-- The question held transiently on a session between next-question and
answer (the currentQuestion field written by getNextQuestion). -/
structure StoredQuestion where
  questionId : String
  questionText : String
  questionType : String
  knowledgeArea : KnowledgeArea
  difficulty : ℤ
  options : Option (List String) := none
  correctAnswer : AnswerValue
  explanation : String
deriving DecidableEq, Repr

/-- A candidate session document (interface CandidateSession).  The
per-area difficulty record is modelled as a partial map. -/
structure CandidateSession where
  sessionId : String
  assessmentId : String
  tenantId : String
  candidateEmail : Option String := none
  candidateName : Option String := none
  startedAt : String
  submittedAt : Option String := none
  currentDifficulty : KnowledgeArea → Option ℤ
  questionsAnswered : List QuestionResponse
  status : SessionStatus
  currentQuestion : Option StoredQuestion := none

/-- Per-area block of PerformanceMetrics. -/
structure AreaScoreData where
  score : ℚ
  questionsAnswered : ℕ
  correctAnswers : ℕ
  avgDifficultyReached : ℚ
  avgTimePerQuestion : ℚ
deriving DecidableEq, Repr

/-- The scoring output (interface PerformanceMetrics, in the variant that
carries the pass/fail flag). -/
structure PerformanceMetrics where
  sessionId : String
  assessmentId : String
  tenantId : String
  overallScore : ℚ
  roleFitScore : ℤ
  passed : Bool
  knowledgeAreaScores : KnowledgeArea → Option AreaScoreData
  strengths : List KnowledgeArea
  weaknesses : List KnowledgeArea
  completedAt : String

/-- JavaScript falsy-coalescing x || d on an optional number (0 is falsy). -/
def jsOrNum (o : Option ℚ) (d : ℚ) : ℚ :=
  match o with
  | some x => if x = 0 then d else x
  | none => d

/-- JavaScript falsy-coalescing x || d on an optional integer (0 is falsy). -/
def jsOrInt (o : Option ℤ) (d : ℤ) : ℤ :=
  match o with
  | some x => if x = 0 then d else x
  | none => d

/-- JavaScript falsy-coalescing x || d on an optional string (the empty
string is falsy). -/
def jsOrStr (o : Option String) (d : String) : String :=
  match o with
  | some s => if s = "" then d else s
  | none => d

/-- Math.round of JavaScript: halves round toward positive infinity. -/
def jsRound (q : ℚ) : ℤ := ⌊q + 1 / 2⌋

/-- Platform constants (shared/constants.ts). -/
def MAX_DIFFICULTY : ℤ := 5

/-- Platform constants (shared/constants.ts). -/
def MIN_DIFFICULTY : ℤ := 1

/-- 80 percent recent accuracy is needed to increase difficulty. -/
def DIFFICULTY_INCREASE_THRESHOLD : ℚ := 0.8

/-- Below 40 percent recent accuracy the difficulty decreases. -/
def DIFFICULTY_DECREASE_THRESHOLD : ℚ := 0.4

/-- Number of responses in an area needed before difficulty may change. -/
def DIFFICULTY_STABLE_WINDOW : ℕ := 3

/-- analytics/adaptive-engine.ts calculateNextDifficulty: next difficulty
for one knowledge area from the answer log.  slice(-n) on a list of length
at least n is modelled by dropping all but the last n elements. -/
def calculateNextDifficulty (currentDifficulty : ℤ) (knowledgeArea : KnowledgeArea)
    (recentResponses : List QuestionResponse) : ℤ :=
  let areaResponses := recentResponses.filter fun r => r.knowledgeArea == knowledgeArea
  if areaResponses.length < DIFFICULTY_STABLE_WINDOW then
    currentDifficulty
  else
    let recentPerformance := areaResponses.drop (areaResponses.length - DIFFICULTY_STABLE_WINDOW)
    let recentCorrect := (recentPerformance.filter fun r => r.isCorrect).length
    let recentAccuracy : ℚ := (recentCorrect : ℚ) / (recentPerformance.length : ℚ)
    if DIFFICULTY_INCREASE_THRESHOLD ≤ recentAccuracy ∧ currentDifficulty < MAX_DIFFICULTY then
      currentDifficulty + 1
    else if recentAccuracy < DIFFICULTY_DECREASE_THRESHOLD ∧ MIN_DIFFICULTY < currentDifficulty then
      currentDifficulty - 1
    else
      currentDifficulty

/-- analytics/adaptive-engine.ts updateSessionDifficulties: re-runs the
Adjuster for every area that occurs in the answer log (the source iterates
the set of areas extracted from the responses) and merges the result over
the existing difficulty record; a missing current difficulty defaults to 3
through the falsy-coalescing idiom. -/
def updateSessionDifficulties (session : CandidateSession) : KnowledgeArea → Option ℤ :=
  fun area =>
    if session.questionsAnswered.any fun r => r.knowledgeArea == area then
      some (calculateNextDifficulty (jsOrInt (session.currentDifficulty area) 3) area
        session.questionsAnswered)
    else
      session.currentDifficulty area

/-- Count of answered questions in one area, as accumulated by
selectNextKnowledgeArea (the source only counts responses whose area key
was initialized from the mix). -/
def areaCount (mix : List KnowledgeAreaConfig) (questionsAnswered : List QuestionResponse)
    (a : KnowledgeArea) : ℕ :=
  if mix.any fun cfg => cfg.area == a then
    (questionsAnswered.filter fun r => r.knowledgeArea == a).length
  else 0

/-- The deficit of one mix entry: target percentage minus actual answered
percentage (0 when nothing is answered yet). -/
def areaDeficit (mix : List KnowledgeAreaConfig) (questionsAnswered : List QuestionResponse)
    (cfg : KnowledgeAreaConfig) : ℚ :=
  let totalAnswered := questionsAnswered.length
  let currentPercentage : ℚ :=
    if 0 < totalAnswered then
      ((areaCount mix questionsAnswered cfg.area : ℚ) / (totalAnswered : ℚ)) * 100
    else 0
  cfg.percentage - currentPercentage

/-- The under-target list built by selectNextKnowledgeArea: mix entries
with strictly positive deficit, in configuration order. -/
def underTargetAreas (mix : List KnowledgeAreaConfig)
    (questionsAnswered : List QuestionResponse) : List (KnowledgeArea × ℚ) :=
  (mix.map fun cfg => (cfg.area, areaDeficit mix questionsAnswered cfg)).filter
    fun p => decide (0 < p.2)

/-- Comparator used to sort the under-target list: larger deficit first. -/
def deficitGe (x y : KnowledgeArea × ℚ) : Prop := y.2 ≤ x.2

instance : DecidableRel deficitGe := fun x y => inferInstanceAs (Decidable (y.2 ≤ x.2))

instance : IsTotal (KnowledgeArea × ℚ) deficitGe :=
  ⟨fun x y => (le_total x.2 y.2).symm⟩

instance : IsTrans (KnowledgeArea × ℚ) deficitGe :=
  ⟨fun _ _ _ hab hbc => le_trans hbc hab⟩

/-- The subtracting walk of weightedRandomSelection: subtract each
percentage from the scaled random draw and stop at the first area where the
remainder is at most zero. -/
def weightedRandomWalk (random : ℚ) : List KnowledgeAreaConfig → Option KnowledgeArea
  | [] => none
  | cfg :: rest =>
    if random - cfg.percentage ≤ 0 then some cfg.area
    else weightedRandomWalk (random - cfg.percentage) rest

/-- analytics/adaptive-engine.ts weightedRandomSelection.  The scaled
random draw Math.random() * total is passed in as the random parameter;
the source falls back to the first area when the walk runs off the end,
and an empty mix (on which the source would crash) yields none. -/
def weightedRandomSelection (random : ℚ) (mix : List KnowledgeAreaConfig) :
    Option KnowledgeArea :=
  match weightedRandomWalk random mix with
  | some a => some a
  | none => mix.head?.map fun cfg => cfg.area

/-- analytics/adaptive-engine.ts selectNextKnowledgeArea: if any area is
under target, sort the under-target list by deficit (largest first) and
take the first; otherwise fall back to weighted random selection. -/
def selectNextKnowledgeArea (mix : List KnowledgeAreaConfig)
    (questionsAnswered : List QuestionResponse) (random : ℚ) : Option KnowledgeArea :=
  match List.insertionSort deficitGe (underTargetAreas mix questionsAnswered) with
  | [] => weightedRandomSelection random mix
  | top :: _ => some top.1

/-- analytics/scoring-engine.ts: per-area metrics of a session, grouped by
the areas of the assessment mix; areas with no answered question in the
mix get no entry, and responses in areas absent from the mix are dropped. -/
def knowledgeAreaScoresOf (session : CandidateSession) (assessment : Assessment) :
    KnowledgeArea → Option AreaScoreData :=
  fun area =>
    if assessment.knowledgeAreaMix.any fun cfg => cfg.area == area then
      let responses := session.questionsAnswered.filter fun r => r.knowledgeArea == area
      if responses.length ≠ 0 then
        let correctAnswers := (responses.filter fun r => r.isCorrect).length
        some {
          score := ((correctAnswers : ℚ) / (responses.length : ℚ)) * 100,
          questionsAnswered := responses.length,
          correctAnswers := correctAnswers,
          avgDifficultyReached :=
            ((responses.map fun r => (r.difficulty : ℚ)).sum) / (responses.length : ℚ),
          avgTimePerQuestion :=
            ((responses.map fun r => r.timeSpentSeconds).sum) / (responses.length : ℚ) }
      else none
    else none

/-- analytics/scoring-engine.ts calculateWeightedScore: mean of the
per-area scores weighted by the configured percentages, normalized over
the areas that actually received answers; 0 when no weight accumulates. -/
def calculateWeightedScore (areaScores : KnowledgeArea → Option AreaScoreData)
    (knowledgeAreaMix : List KnowledgeAreaConfig) : ℚ :=
  let acc := knowledgeAreaMix.foldl
    (fun (acc : ℚ × ℚ) cfg =>
      match areaScores cfg.area with
      | some s =>
        if 0 < s.questionsAnswered then
          (acc.1 + s.score * (cfg.percentage / 100), acc.2 + cfg.percentage / 100)
        else acc
      | none => acc)
    (0, 0)
  if 0 < acc.2 then acc.1 / acc.2 else 0

/-- The role-specific weight of one mix entry inside calculateRoleFitScore:
the configured weight times 1.5 or 1.3 for role-critical areas of the
seniority tier, unchanged otherwise. -/
def roleBoostedWeight (targetRole : TargetRole) (cfg : KnowledgeAreaConfig) : ℚ :=
  let weight := cfg.percentage / 100
  if targetRole.seniorityLevel = SeniorityLevel.SENIOR ∨
      targetRole.seniorityLevel = SeniorityLevel.LEAD then
    if cfg.area = KnowledgeArea.SYSTEM_SCENARIO_DESIGN then weight * 1.5
    else if cfg.area = KnowledgeArea.ALGORITHMS_DATA_STRUCTURES then weight * 1.3
    else weight
  else
    if cfg.area = KnowledgeArea.PROGRAMMING_LANGUAGE then weight * 1.5
    else if cfg.area = KnowledgeArea.ANALYTICAL_REASONING then weight * 1.3
    else weight

/-- analytics/scoring-engine.ts calculateRoleFitScore: weighted mean with
role-boosted weights over the answered areas, renormalized by the boosted
weight sum, clamped to 0..100 and rounded. -/
def calculateRoleFitScore (areaScores : KnowledgeArea → Option AreaScoreData)
    (targetRole : TargetRole) (knowledgeAreaMix : List KnowledgeAreaConfig) : ℤ :=
  let acc := knowledgeAreaMix.foldl
    (fun (acc : ℚ × ℚ) cfg =>
      match areaScores cfg.area with
      | some s =>
        if 0 < s.questionsAnswered then
          let weight := roleBoostedWeight targetRole cfg
          (acc.1 + s.score * weight, acc.2 + weight)
        else acc
      | none => acc)
    (0, 0)
  if acc.2 = 0 then 0
  else jsRound (min 100 (max 0 (acc.1 / acc.2)))

/-- Insertion order of the keys of a JavaScript object built by repeated
assignment: first occurrence wins, later duplicates do not move the key. -/
def jsObjectKeys : List KnowledgeArea → List KnowledgeArea
  | [] => []
  | a :: rest => a :: jsObjectKeys (rest.filter fun x => decide (x ≠ a))
termination_by l => l.length
decreasing_by
  simp_wf
  exact Nat.lt_succ_of_le (List.length_filter_le _ _)

/-- analytics/scoring-engine.ts identifyStrengthsAndWeaknesses: areas at
least 10 points above the plain mean of answered-area scores are
strengths, areas at least 15 points below it are weaknesses. -/
def identifyStrengthsAndWeaknesses (areaScores : KnowledgeArea → Option AreaScoreData)
    (knowledgeAreaMix : List KnowledgeAreaConfig) :
    List KnowledgeArea × List KnowledgeArea :=
  let keys := jsObjectKeys (knowledgeAreaMix.map fun cfg => cfg.area)
  let scores := keys.filterMap fun a =>
    match areaScores a with
    | some s => if 0 < s.questionsAnswered then some s.score else none
    | none => none
  let avgScore : ℚ := if 0 < scores.length then scores.sum / (scores.length : ℚ) else 0
  let strengthThreshold := avgScore + 10
  let weaknessThreshold := avgScore - 15
  knowledgeAreaMix.foldl
    (fun (acc : List KnowledgeArea × List KnowledgeArea) cfg =>
      match areaScores cfg.area with
      | some s =>
        if 0 < s.questionsAnswered then
          if strengthThreshold ≤ s.score then (acc.1 ++ [cfg.area], acc.2)
          else if s.score ≤ weaknessThreshold then (acc.1, acc.2 ++ [cfg.area])
          else acc
        else acc
      | none => acc)
    ([], [])

/-- analytics/scoring-engine.ts getDefaultPassThreshold. -/
def getDefaultPassThreshold (seniorityLevel : SeniorityLevel) : ℚ :=
  match seniorityLevel with
  | SeniorityLevel.JUNIOR => 50
  | SeniorityLevel.MID => 60
  | SeniorityLevel.SENIOR => 70
  | SeniorityLevel.LEAD => 75

/-- analytics/scoring-engine.ts calculatePerformanceMetrics.  The clock is
the explicit now parameter: it is consulted only when the session document
has no (non-empty) submittedAt value. -/
def calculatePerformanceMetrics (session : CandidateSession) (assessment : Assessment)
    (now : String) : PerformanceMetrics :=
  let knowledgeAreaScores := knowledgeAreaScoresOf session assessment
  let overallScore := calculateWeightedScore knowledgeAreaScores assessment.knowledgeAreaMix
  let roleFitScore :=
    calculateRoleFitScore knowledgeAreaScores assessment.targetRole assessment.knowledgeAreaMix
  let sw := identifyStrengthsAndWeaknesses knowledgeAreaScores assessment.knowledgeAreaMix
  let passThreshold :=
    jsOrNum assessment.passThreshold (getDefaultPassThreshold assessment.targetRole.seniorityLevel)
  { sessionId := session.sessionId,
    assessmentId := session.assessmentId,
    tenantId := session.tenantId,
    overallScore := overallScore,
    roleFitScore := roleFitScore,
    passed := decide (passThreshold ≤ (roleFitScore : ℚ)),
    knowledgeAreaScores := knowledgeAreaScores,
    strengths := sw.1,
    weaknesses := sw.2,
    completedAt := jsOrStr session.submittedAt now }

/-- An error of the platform error hierarchy (shared/errors.ts): the HTTP
status code, the machine-readable code and the message. -/
structure PlatformError where
  statusCode : ℕ
  code : String
  message : String
deriving DecidableEq, Repr

/-- shared/errors.ts ValidationError: HTTP 400. -/
def validationError (message : String) : PlatformError :=
  { statusCode := 400, code := "VALIDATION_ERROR", message := message }

/-- shared/errors.ts NotFoundError: HTTP 404, message suffixed. -/
def notFoundError (resource : String) : PlatformError :=
  { statusCode := 404, code := "NOT_FOUND_ERROR", message := resource ++ " not found" }

/-- shared/errors.ts ConflictError: HTTP 409, the state-conflict class of
the platform (declared but not raised by the session handlers). -/
def conflictError (message : String) : PlatformError :=
  { statusCode := 409, code := "CONFLICT_ERROR", message := message }

/-- String(v) of JavaScript on a string-or-array value: arrays are joined
with commas. -/
def jsToString (v : AnswerValue) : String :=
  match v with
  | AnswerValue.str s => s
  | AnswerValue.arr l => String.intercalate "," l

/-- String.prototype.trim of JavaScript, as an executable definition over
the character list (whitespace stripped from both ends). -/
def jsTrim (s : String) : String :=
  String.mk (((s.data.dropWhile Char.isWhitespace).reverse.dropWhile Char.isWhitespace).reverse)

/-- trim().toLowerCase() as applied by checkAnswer. -/
def jsNormalize (s : String) : String := String.mk ((jsTrim s).data.map Char.toLower)

/-- lambda/handlers/sessions.ts checkAnswer: set equality of raw strings
for a multi-value expected answer (a non-array submission is wrong),
trimmed case-insensitive string equality for a single expected value. -/
def checkAnswer (userAnswer correctAnswer : AnswerValue) : Bool :=
  match correctAnswer with
  | AnswerValue.arr correct =>
    match userAnswer with
    | AnswerValue.arr user =>
      (correct.all fun ans => user.contains ans) && (user.all fun ans => correct.contains ans)
    | AnswerValue.str _ => false
  | AnswerValue.str correct =>
    jsNormalize (jsToString userAnswer) == jsNormalize correct

/-- The durable state visible to the session handlers: the per-tenant
session, question and assessment tables, plus the session list the
tenant-less fallback scan walks. -/
structure SessionStore where
  sessions : String → String → Option CandidateSession
  allSessions : List CandidateSession
  questions : String → String → Option StoredQuestion
  assessments : String → String → Option Assessment

/-- lambda/handlers/sessions.ts findSessionById: direct keyed lookup when
a (non-empty) tenant id is supplied, otherwise a scan by session id. -/
def findSessionById (db : SessionStore) (sessionId : String) (tenantId : Option String) :
    Option CandidateSession :=
  match tenantId with
  | some t =>
    if t = "" then db.allSessions.find? fun s => s.sessionId == sessionId
    else db.sessions t sessionId
  | none => db.allSessions.find? fun s => s.sessionId == sessionId

/-- The question-resolution block of submitAnswer (sessions.ts lines
409-443): prefer the transient currentQuestion of the session when its id
matches, falling back to the per-assessment questions table. -/
def resolveSubmittedQuestion (db : SessionStore) (session : CandidateSession)
    (questionId : String) : Except PlatformError StoredQuestion :=
  let fromTable : Except PlatformError StoredQuestion :=
    match db.questions (jsTrim session.tenantId) (session.assessmentId ++ "#" ++ questionId) with
    | some q => Except.ok q
    | none => Except.error (notFoundError "Question")
  match session.currentQuestion with
  | some cq =>
    if cq.questionId = questionId then
      if cq.questionId ≠ "" ∧ cq.questionText ≠ "" then Except.ok cq
      else Except.error (validationError "Invalid question data in session")
    else fromTable
  | none => fromTable

/-- The 200 body returned by submitAnswer. -/
structure AnswerResponseBody where
  isCorrect : Bool
  explanation : String
  nextQuestionAvailable : Bool
  questionsAnswered : ℕ
  maxQuestions : ℚ
deriving DecidableEq, Repr

/-- The JSON body accepted by submitAnswer. -/
structure AnswerBody where
  questionId : Option String := none
  answer : Option AnswerValue := none
  timeSpentSeconds : Option ℚ := none

/-- lambda/handlers/sessions.ts submitAnswer, as a pure step over the
store: an ok result carries the updated session document written back by
updateItem (log appended, difficulty record replaced, transient question
cleared) together with the response body; an error result performs no
write.  The display-only copies of question fields that the source also
stores on the log entry are omitted.  The clock is the now parameter. -/
def submitAnswer (db : SessionStore) (pathSessionId : Option String)
    (queryTenantId : Option String) (body : AnswerBody) (now : String) :
    Except PlatformError (CandidateSession × AnswerResponseBody) :=
  match pathSessionId with
  | none => Except.error (validationError "Session ID required")
  | some sessionId =>
    if sessionId = "" then Except.error (validationError "Session ID required")
    else
      match body.questionId, body.answer, body.timeSpentSeconds with
      | some questionId, some answer, some timeSpentSeconds =>
        if questionId = "" then
          Except.error (validationError "Missing required fields: questionId, answer, timeSpentSeconds")
        else
          match findSessionById db sessionId queryTenantId with
          | none => Except.error (notFoundError "Session")
          | some session =>
            if session.status ≠ SessionStatus.IN_PROGRESS then
              Except.error (validationError "Session is not in progress")
            else if jsTrim session.tenantId = "" then
              Except.error (validationError "Session configuration error: tenantId is missing. Please contact support.")
            else
              match resolveSubmittedQuestion db session questionId with
              | Except.error e => Except.error e
              | Except.ok question =>
                if session.questionsAnswered.any fun r => r.questionId == questionId then
                  Except.error (validationError "Question already answered")
                else
                  let isCorrect := checkAnswer answer question.correctAnswer
                  let response : QuestionResponse := {
                    questionId := questionId,
                    knowledgeArea := question.knowledgeArea,
                    difficulty := question.difficulty,
                    answer := answer,
                    isCorrect := isCorrect,
                    timeSpentSeconds := timeSpentSeconds,
                    answeredAt := now }
                  let updatedQuestions := session.questionsAnswered ++ [response]
                  let updatedDifficulties :=
                    updateSessionDifficulties { session with questionsAnswered := updatedQuestions }
                  let assessment := db.assessments (jsTrim session.tenantId) session.assessmentId
                  let maxQuestions := jsOrNum (assessment.bind fun a => a.maxQuestions) 10
                  let questionsAnsweredCount := session.questionsAnswered.length + 1
                  Except.ok
                    ({ session with
                        questionsAnswered := updatedQuestions,
                        currentDifficulty := updatedDifficulties,
                        currentQuestion := none },
                     { isCorrect := isCorrect,
                       explanation := question.explanation,
                       nextQuestionAvailable := decide ((questionsAnsweredCount : ℚ) < maxQuestions),
                       questionsAnswered := questionsAnsweredCount,
                       maxQuestions := maxQuestions })
      | _, _, _ =>
        Except.error (validationError "Missing required fields: questionId, answer, timeSpentSeconds")

/-- The guard prefix of lambda/handlers/sessions.ts getNextQuestion (lines
245-267): the only conditions under which the request is rejected before
the handler proceeds to area selection and question generation. -/
def getNextQuestionGuard (db : SessionStore) (pathSessionId : Option String)
    (queryTenantId : Option String) : Except PlatformError CandidateSession :=
  match pathSessionId with
  | none => Except.error (validationError "Session ID required")
  | some sessionId =>
    if sessionId = "" then Except.error (validationError "Session ID required")
    else
      match findSessionById db sessionId queryTenantId with
      | none => Except.error (notFoundError "Session")
      | some session =>
        if session.status ≠ SessionStatus.IN_PROGRESS then
          Except.error (validationError "Session is not in progress")
        else Except.ok session

/-- lambda/handlers/sessions.ts submitSession as a pure step: an ok result
carries the terminal session document (status COMPLETED, submittedAt
stamped) and the persisted metrics; an error result performs no write.
The insights generation step is external and error-swallowed in the
source, so it does not appear. -/
def submitSession (db : SessionStore) (pathSessionId : Option String)
    (queryTenantId : Option String) (now : String) :
    Except PlatformError (CandidateSession × PerformanceMetrics) :=
  match pathSessionId with
  | none => Except.error (validationError "Session ID required")
  | some sessionId =>
    if sessionId = "" then Except.error (validationError "Session ID required")
    else
      match findSessionById db sessionId queryTenantId with
      | none => Except.error (notFoundError "Session")
      | some session =>
        if session.status ≠ SessionStatus.IN_PROGRESS then
          Except.error (validationError "Session already submitted")
        else
          match db.assessments session.tenantId session.assessmentId with
          | none => Except.error (notFoundError "Assessment")
          | some assessment =>
            let metrics := calculatePerformanceMetrics session assessment now
            Except.ok
              ({ session with status := SessionStatus.COMPLETED, submittedAt := some now },
               metrics)

/-- The JSON body accepted by createAssessment. -/
structure CreateAssessmentBody where
  title : Option String := none
  description : Option String := none
  targetRole : Option TargetRole := none
  knowledgeAreaMix : Option (List KnowledgeAreaConfig) := none
  initialDifficulty : Option ℤ := none
  durationMinutes : Option ℚ := none
  maxQuestions : Option ℚ := none

/-- lambda/handlers/assessments.ts createAssessment, from request parsing
onward (authentication and tenant resolution are external and passed in as
the resolved tenantId): destructuring defaults initialDifficulty to 3 and
maxQuestions to 10, the guards reject missing fields, an empty mix, an
out-of-range question cap and percentages that do not sum to 100 within
0.01 - and the initial difficulty is stored without any range check. -/
def createAssessment (tenantId : String) (body : CreateAssessmentBody)
    (assessmentId now createdBy : String) : Except PlatformError Assessment :=
  let initialDifficulty := body.initialDifficulty.getD 3
  let maxQuestions := body.maxQuestions.getD 10
  match body.title, body.targetRole, body.knowledgeAreaMix with
  | some title, some targetRole, some knowledgeAreaMix =>
    if title = "" then
      Except.error (validationError "Missing required fields: title, targetRole, knowledgeAreaMix")
    else if knowledgeAreaMix = [] then
      Except.error (validationError "knowledgeAreaMix must be a non-empty array")
    else if maxQuestions < 1 ∨ 50 < maxQuestions then
      Except.error (validationError "maxQuestions must be a number between 1 and 50")
    else
      let totalPercentage := knowledgeAreaMix.foldl (fun s cfg => s + cfg.percentage) 0
      if 0.01 < |totalPercentage - 100| then
        Except.error (validationError "Knowledge area percentages must sum to 100")
      else
        Except.ok {
          assessmentId := assessmentId,
          tenantId := tenantId,
          title := title,
          description := body.description,
          targetRole := targetRole,
          knowledgeAreaMix := knowledgeAreaMix,
          initialDifficulty := initialDifficulty,
          durationMinutes := body.durationMinutes,
          maxQuestions := some (max 1 (min 50 maxQuestions)),
          passThreshold := none,
          createdAt := now,
          updatedAt := now,
          createdBy := createdBy,
          isActive := true }
  | _, _, _ =>
    Except.error (validationError "Missing required fields: title, targetRole, knowledgeAreaMix")

/-- A concrete log entry for the concrete scenarios below. -/
def mkResponse (qid : String) (a : KnowledgeArea) (d : ℤ) (ok : Bool) : QuestionResponse :=
  { questionId := qid, knowledgeArea := a, difficulty := d, answer := AnswerValue.str "x",
    isCorrect := ok, timeSpentSeconds := 10, answeredAt := "2024-01-01T00:00:00Z" }

/-- Three correct responses in one area: enough signal to adjust. -/
def c1log : List QuestionResponse :=
  [mkResponse "q1" KnowledgeArea.PROGRAMMING_LANGUAGE 3 true,
   mkResponse "q2" KnowledgeArea.PROGRAMMING_LANGUAGE 3 true,
   mkResponse "q3" KnowledgeArea.PROGRAMMING_LANGUAGE 4 true]

/-- The pending programming question of the cross-area scenario. -/
def c2question : StoredQuestion :=
  { questionId := "q4", questionText := "Compute x", questionType := "MCQ",
    knowledgeArea := KnowledgeArea.PROGRAMMING_LANGUAGE, difficulty := 3,
    correctAnswer := AnswerValue.str "x", explanation := "by definition" }

/-- A reachable in-progress session: three correct algorithms answers have
already raised that area to difficulty 4, and a programming question is
pending. -/
def c2session : CandidateSession :=
  { sessionId := "s2", assessmentId := "a1", tenantId := "t1",
    startedAt := "2024-01-01T00:00:00Z",
    currentDifficulty := fun a =>
      match a with
      | KnowledgeArea.ALGORITHMS_DATA_STRUCTURES => some 4
      | KnowledgeArea.PROGRAMMING_LANGUAGE => some 3
      | _ => none,
    questionsAnswered :=
      [mkResponse "q1" KnowledgeArea.ALGORITHMS_DATA_STRUCTURES 3 true,
       mkResponse "q2" KnowledgeArea.ALGORITHMS_DATA_STRUCTURES 3 true,
       mkResponse "q3" KnowledgeArea.ALGORITHMS_DATA_STRUCTURES 4 true],
    status := SessionStatus.IN_PROGRESS,
    currentQuestion := some c2question }

/-- Store holding the cross-area scenario session. -/
def c2db : SessionStore :=
  { sessions := fun t s => if t = "t1" ∧ s = "s2" then some c2session else none,
    allSessions := [c2session],
    questions := fun _ _ => none,
    assessments := fun _ _ => none }

/-- A correct answer to the pending programming question. -/
def c2body : AnswerBody :=
  { questionId := some "q4", answer := some (AnswerValue.str "x"), timeSpentSeconds := some 5 }

/-- A 60/40 mix of two areas. -/
def c3mix : List KnowledgeAreaConfig :=
  [{ area := KnowledgeArea.PROGRAMMING_LANGUAGE, percentage := 60 },
   { area := KnowledgeArea.ALGORITHMS_DATA_STRUCTURES, percentage := 40 }]

/-- Five answers, all in the first area of the mix. -/
def c3log : List QuestionResponse :=
  [mkResponse "q1" KnowledgeArea.PROGRAMMING_LANGUAGE 3 true,
   mkResponse "q2" KnowledgeArea.PROGRAMMING_LANGUAGE 3 false,
   mkResponse "q3" KnowledgeArea.PROGRAMMING_LANGUAGE 3 true,
   mkResponse "q4" KnowledgeArea.PROGRAMMING_LANGUAGE 3 true,
   mkResponse "q5" KnowledgeArea.PROGRAMMING_LANGUAGE 4 true]

/-- The per-area scores of the worked role-fit example: systems 90,
algorithms 80, one other area 50. -/
def c4scores : KnowledgeArea → Option AreaScoreData := fun a =>
  match a with
  | KnowledgeArea.SYSTEM_SCENARIO_DESIGN =>
    some { score := 90, questionsAnswered := 2, correctAnswers := 2,
           avgDifficultyReached := 3, avgTimePerQuestion := 10 }
  | KnowledgeArea.ALGORITHMS_DATA_STRUCTURES =>
    some { score := 80, questionsAnswered := 2, correctAnswers := 2,
           avgDifficultyReached := 3, avgTimePerQuestion := 10 }
  | KnowledgeArea.QUANTITATIVE_MATH =>
    some { score := 50, questionsAnswered := 2, correctAnswers := 1,
           avgDifficultyReached := 3, avgTimePerQuestion := 10 }
  | _ => none

/-- The 40/30/30 mix of the worked role-fit example. -/
def c4mix : List KnowledgeAreaConfig :=
  [{ area := KnowledgeArea.SYSTEM_SCENARIO_DESIGN, percentage := 40 },
   { area := KnowledgeArea.ALGORITHMS_DATA_STRUCTURES, percentage := 30 },
   { area := KnowledgeArea.QUANTITATIVE_MATH, percentage := 30 }]

/-- A senior target role. -/
def c4role : TargetRole := { name := "Staff Engineer", seniorityLevel := SeniorityLevel.SENIOR }

/-- An assessment for the determinism scenario. -/
def c5assessment : Assessment :=
  { assessmentId := "a5", tenantId := "t1", title := "Backend screen",
    targetRole := { name := "Backend Dev", seniorityLevel := SeniorityLevel.MID },
    knowledgeAreaMix :=
      [{ area := KnowledgeArea.PROGRAMMING_LANGUAGE, percentage := 50 },
       { area := KnowledgeArea.ALGORITHMS_DATA_STRUCTURES, percentage := 50 }],
    initialDifficulty := 3, maxQuestions := some 10,
    createdAt := "2024-01-01T00:00:00Z", updatedAt := "2024-01-01T00:00:00Z",
    createdBy := "u1", isActive := true }

/-- A completed session document: submittedAt is stamped. -/
def c5session : CandidateSession :=
  { sessionId := "s5", assessmentId := "a5", tenantId := "t1",
    startedAt := "2024-01-01T00:00:00Z",
    submittedAt := some "2024-01-01T01:00:00Z",
    currentDifficulty := fun _ => some 3,
    questionsAnswered :=
      [mkResponse "q1" KnowledgeArea.PROGRAMMING_LANGUAGE 3 true,
       mkResponse "q2" KnowledgeArea.ALGORITHMS_DATA_STRUCTURES 3 false],
    status := SessionStatus.COMPLETED }

/-- Session whose pending question q1 was already answered. -/
def c6session : CandidateSession :=
  { sessionId := "s6", assessmentId := "a1", tenantId := "t1",
    startedAt := "2024-01-01T00:00:00Z",
    currentDifficulty := fun _ => some 3,
    questionsAnswered := [mkResponse "q1" KnowledgeArea.PROGRAMMING_LANGUAGE 3 true],
    status := SessionStatus.IN_PROGRESS,
    currentQuestion := some
      { questionId := "q1", questionText := "Compute x", questionType := "MCQ",
        knowledgeArea := KnowledgeArea.PROGRAMMING_LANGUAGE, difficulty := 3,
        correctAnswer := AnswerValue.str "x", explanation := "by definition" } }

/-- Store holding the duplicate-submission scenario session. -/
def c6db : SessionStore :=
  { sessions := fun t s => if t = "t1" ∧ s = "s6" then some c6session else none,
    allSessions := [c6session],
    questions := fun _ _ => none,
    assessments := fun _ _ => none }

/-- A second submission for the already-answered question q1. -/
def c6body : AnswerBody :=
  { questionId := some "q1", answer := some (AnswerValue.str "x"), timeSpentSeconds := some 5 }

/-- The ordinary duplicate-retry session: q1 already answered and the
transient currentQuestion already cleared by the accepted first answer. -/
def c6bsession : CandidateSession :=
  { sessionId := "s6b", assessmentId := "a1", tenantId := "t1",
    startedAt := "2024-01-01T00:00:00Z",
    currentDifficulty := fun _ => some 3,
    questionsAnswered := [mkResponse "q1" KnowledgeArea.PROGRAMMING_LANGUAGE 3 true],
    status := SessionStatus.IN_PROGRESS,
    currentQuestion := none }

/-- Store holding the duplicate-retry session; the questions table holds
no adaptive questions. -/
def c6bdb : SessionStore :=
  { sessions := fun t s => if t = "t1" ∧ s = "s6b" then some c6bsession else none,
    allSessions := [c6bsession],
    questions := fun _ _ => none,
    assessments := fun _ _ => none }

/-- An already-completed (terminal) session. -/
def c7session : CandidateSession :=
  { sessionId := "s7", assessmentId := "a1", tenantId := "t1",
    startedAt := "2024-01-01T00:00:00Z",
    submittedAt := some "2024-01-01T01:00:00Z",
    currentDifficulty := fun _ => some 3,
    questionsAnswered := [mkResponse "q1" KnowledgeArea.PROGRAMMING_LANGUAGE 3 true],
    status := SessionStatus.COMPLETED }

/-- Store holding only the terminal session s7. -/
def c7db : SessionStore :=
  { sessions := fun t s => if t = "t1" ∧ s = "s7" then some c7session else none,
    allSessions := [c7session],
    questions := fun _ _ => none,
    assessments := fun _ _ => none }

/-- A creation request that is well-formed except for its out-of-range
initial difficulty of 7. -/
def c8body : CreateAssessmentBody :=
  { title := some "Frontend screen",
    targetRole := some { name := "Frontend Dev", seniorityLevel := SeniorityLevel.JUNIOR },
    knowledgeAreaMix := some [{ area := KnowledgeArea.PROGRAMMING_LANGUAGE, percentage := 100 }],
    initialDifficulty := some 7,
    maxQuestions := some 10 }

/-- An assessment whose question cap is 2. -/
def c10assessment : Assessment :=
  { assessmentId := "a1", tenantId := "t1", title := "Capped screen",
    targetRole := { name := "Dev", seniorityLevel := SeniorityLevel.MID },
    knowledgeAreaMix :=
      [{ area := KnowledgeArea.PROGRAMMING_LANGUAGE, percentage := 100 }],
    initialDifficulty := 3, maxQuestions := some 2,
    createdAt := "2024-01-01T00:00:00Z", updatedAt := "2024-01-01T00:00:00Z",
    createdBy := "u1", isActive := true }

/-- An in-progress session that already answered as many questions as the
cap allows, with a further question pending. -/
def c10session : CandidateSession :=
  { sessionId := "s10", assessmentId := "a1", tenantId := "t1",
    startedAt := "2024-01-01T00:00:00Z",
    currentDifficulty := fun _ => some 3,
    questionsAnswered :=
      [mkResponse "q1" KnowledgeArea.PROGRAMMING_LANGUAGE 3 true,
       mkResponse "q2" KnowledgeArea.PROGRAMMING_LANGUAGE 3 true],
    status := SessionStatus.IN_PROGRESS,
    currentQuestion := some
      { questionId := "q3", questionText := "Compute x", questionType := "MCQ",
        knowledgeArea := KnowledgeArea.PROGRAMMING_LANGUAGE, difficulty := 3,
        correctAnswer := AnswerValue.str "x", explanation := "by definition" } }

/-- Store holding the at-cap session and its capped assessment. -/
def c10db : SessionStore :=
  { sessions := fun t s => if t = "t1" ∧ s = "s10" then some c10session else none,
    allSessions := [c10session],
    questions := fun _ _ => none,
    assessments := fun t a => if t = "t1" ∧ a = "a1" then some c10assessment else none }

/-- An answer to the pending question q3 of the at-cap session. -/
def c10body : AnswerBody :=
  { questionId := some "q3", answer := some (AnswerValue.str "x"), timeSpentSeconds := some 5 }

/-- The boosted-weight weighted sum of scores over the answered areas of
the mix, written as a plain sum. -/
def roleFitNumerator (areaScores : KnowledgeArea → Option AreaScoreData)
    (role : TargetRole) (mix : List KnowledgeAreaConfig) : ℚ :=
  (mix.map fun cfg =>
    match areaScores cfg.area with
    | some s => if 0 < s.questionsAnswered then s.score * roleBoostedWeight role cfg else 0
    | none => 0).sum

/-- The sum of boosted weights over the answered areas of the mix. -/
def roleFitDenominator (areaScores : KnowledgeArea → Option AreaScoreData)
    (role : TargetRole) (mix : List KnowledgeAreaConfig) : ℚ :=
  (mix.map fun cfg =>
    match areaScores cfg.area with
    | some s => if 0 < s.questionsAnswered then roleBoostedWeight role cfg else 0
    | none => 0).sum

/-- The log entry appended by the cross-area scenario answer. -/
def c2newResponse : QuestionResponse :=
  { questionId := "q4", knowledgeArea := KnowledgeArea.PROGRAMMING_LANGUAGE, difficulty := 3,
    answer := AnswerValue.str "x", isCorrect := true, timeSpentSeconds := 5, answeredAt := "T" }

/-- The sub-log of one area, in order. -/
def areaLog (a : KnowledgeArea) (log : List QuestionResponse) : List QuestionResponse :=
  log.filter fun r => r.knowledgeArea == a

/-- Accuracy over the last three responses of one area: correct count
divided by three. -/
def lastWindowAccuracy (a : KnowledgeArea) (log : List QuestionResponse) : ℚ :=
  ((((areaLog a log).drop ((areaLog a log).length - 3)).filter fun r => r.isCorrect).length : ℚ) / 3

theorem calculateNextDifficulty_eq (d : ℤ) (a : KnowledgeArea) (log : List QuestionResponse) :
    calculateNextDifficulty d a log =
      if (areaLog a log).length < 3 then d
      else if 0.8 ≤ lastWindowAccuracy a log ∧ d < 5 then d + 1
      else if lastWindowAccuracy a log < 0.4 ∧ 1 < d then d - 1
      else d := by
  unfold calculateNextDifficulty areaLog lastWindowAccuracy
  unfold DIFFICULTY_STABLE_WINDOW DIFFICULTY_INCREASE_THRESHOLD DIFFICULTY_DECREASE_THRESHOLD
  unfold MAX_DIFFICULTY MIN_DIFFICULTY
  by_cases h : (List.filter (fun r => r.knowledgeArea == a) log).length < 3
  · simp [h]
  · have hlen : ((List.filter (fun r => r.knowledgeArea == a) log).drop
        ((List.filter (fun r => r.knowledgeArea == a) log).length - 3)).length = 3 := by
      rw [List.length_drop]
      omega
    simp only [if_neg h, hlen]
    norm_num [areaLog]

/-- Claim C1: the Difficulty Adjuster returns the difficulty unchanged on
fewer than three responses in the area, and otherwise adjusts by the
accuracy of the last three responses (increase at 0.8 and above while
below 5, decrease below 0.4 while above 1, hold otherwise); for a current
difficulty within 1..5 the result stays within 1..5 and moves by at most
one level. -/
theorem calculateNextDifficulty_spec (d : ℤ) (a : KnowledgeArea)
    (log : List QuestionResponse) (h1 : 1 ≤ d) (h2 : d ≤ 5) :
    ((areaLog a log).length < 3 → calculateNextDifficulty d a log = d) ∧
    (3 ≤ (areaLog a log).length →
      calculateNextDifficulty d a log =
        if 0.8 ≤ lastWindowAccuracy a log ∧ d < 5 then d + 1
        else if lastWindowAccuracy a log < 0.4 ∧ 1 < d then d - 1
        else d) ∧
    1 ≤ calculateNextDifficulty d a log ∧
    calculateNextDifficulty d a log ≤ 5 ∧
    (calculateNextDifficulty d a log - d).natAbs ≤ 1 := by
  rw [calculateNextDifficulty_eq]
  by_cases h : (areaLog a log).length < 3
  · rw [if_pos h]
    refine ⟨fun _ => rfl, fun hge => absurd hge (by omega), by omega, by omega, by omega⟩
  · rw [if_neg h]
    refine ⟨fun hlt => absurd hlt h, fun _ => rfl, ?_⟩
    split_ifs with hi hd
    · exact ⟨by omega, by omega, by omega⟩
    · exact ⟨by omega, by omega, by omega⟩
    · exact ⟨by omega, by omega, by omega⟩

/-- Witness for C1: difficulty 3 with three straight correct answers in
the area is within bounds before and after the adjustment. -/
theorem calculateNextDifficulty_spec_witness :
    (1 : ℤ) ≤ 3 ∧ (3 : ℤ) ≤ 5 ∧
      1 ≤ calculateNextDifficulty 3 KnowledgeArea.PROGRAMMING_LANGUAGE c1log :=
  ⟨by norm_num, by norm_num,
   (calculateNextDifficulty_spec 3 KnowledgeArea.PROGRAMMING_LANGUAGE c1log
      (by norm_num) (by norm_num)).2.2.1⟩

/-- Claim C9: grading compares a single expected value by trimmed,
lowercased string equality, and a multi-value expected answer by exact set
equality of the raw strings, with a non-array submission against a
multi-value answer graded incorrect. -/
theorem checkAnswer_spec :
    (∀ u c : String, checkAnswer (AnswerValue.str u) (AnswerValue.str c) = true ↔
        jsNormalize u = jsNormalize c) ∧
    (∀ u c : List String, checkAnswer (AnswerValue.arr u) (AnswerValue.arr c) = true ↔
        u.toFinset = c.toFinset) ∧
    (∀ (u : String) (c : List String),
        checkAnswer (AnswerValue.str u) (AnswerValue.arr c) = false) := by
  refine ⟨?_, ?_, fun u c => rfl⟩
  · intro u c
    simp [checkAnswer, jsToString]
  · intro u c
    simp only [checkAnswer, Bool.and_eq_true, List.all_eq_true]
    constructor
    · rintro ⟨h1, h2⟩
      apply Finset.ext
      intro x
      simp only [List.mem_toFinset]
      constructor
      · intro hx
        have := h2 x hx
        simpa using this
      · intro hx
        have := h1 x hx
        simpa using this
    · intro hEq
      have hmem : ∀ x, x ∈ u ↔ x ∈ c := by
        intro x
        have := Finset.ext_iff.mp hEq x
        simpa using this
      constructor
      · intro x hx
        simpa using (hmem x).mpr hx
      · intro x hx
        simpa using (hmem x).mp hx

/-- Claim C5: the Scoring Engine is deterministic on a completed session
document: since a completed document carries a non-empty submittedAt
stamp, the clock parameter is never consulted and two runs on the same
session and assessment produce identical metrics in every field,
completedAt included. -/
theorem calculatePerformanceMetrics_deterministic (session : CandidateSession)
    (assessment : Assessment) (t : String) (hsub : session.submittedAt = some t)
    (ht : t ≠ "") (now1 now2 : String) :
    calculatePerformanceMetrics session assessment now1 =
      calculatePerformanceMetrics session assessment now2 := by
  unfold calculatePerformanceMetrics
  rw [hsub]
  simp [jsOrStr, ht]

/-- Witness for C5: scoring the concrete completed session at two
different clock readings gives identical metrics. -/
theorem calculatePerformanceMetrics_deterministic_witness :
    c5session.submittedAt = some "2024-01-01T01:00:00Z" ∧
    calculatePerformanceMetrics c5session c5assessment "A" =
      calculatePerformanceMetrics c5session c5assessment "B" :=
  ⟨rfl,
   calculatePerformanceMetrics_deterministic c5session c5assessment
     "2024-01-01T01:00:00Z" rfl (by decide) "A" "B"⟩

/-- Claim C7: submitting a session that exists but is no longer in
progress fails with the already-submitted validation error and produces no
write (the ok constructor carrying the written documents is never
returned), while submitting a nonexistent session id fails with the
not-found error; the two errors are distinct. -/
theorem submitSession_error_distinction (db : SessionStore) (sid : String)
    (tid : Option String) (now : String) (hsid : sid ≠ "") :
    (∀ session, findSessionById db sid tid = some session →
        session.status ≠ SessionStatus.IN_PROGRESS →
        submitSession db (some sid) tid now =
          Except.error (validationError "Session already submitted") ∧
        ∀ result, submitSession db (some sid) tid now ≠ Except.ok result) ∧
    (findSessionById db sid tid = none →
        submitSession db (some sid) tid now = Except.error (notFoundError "Session")) ∧
    validationError "Session already submitted" ≠ notFoundError "Session" := by
  refine ⟨?_, ?_, by decide⟩
  · intro session hfind hstat
    have he : submitSession db (some sid) tid now =
        Except.error (validationError "Session already submitted") := by
      simp only [submitSession]
      rw [if_neg hsid, hfind]
      simp [hstat]
    refine ⟨he, fun result h => ?_⟩
    rw [he] at h
    exact Except.noConfusion h
  · intro hnone
    simp only [submitSession]
    rw [if_neg hsid, hnone]

/-- Witness for C7: the concrete terminal session s7 is rejected with the
already-submitted error, and the unknown id is rejected with not-found. -/
theorem submitSession_error_distinction_witness :
    ("s7" : String) ≠ "" ∧
    submitSession c7db (some "s7") (some "t1") "T" =
      Except.error (validationError "Session already submitted") ∧
    submitSession c7db (some "missing") (some "t1") "T" =
      Except.error (notFoundError "Session") := by
  refine ⟨by decide, ?_, ?_⟩
  · exact ((submitSession_error_distinction c7db "s7" (some "t1") "T"
      (by decide)).1 c7session rfl (by decide)).1
  · exact (submitSession_error_distinction c7db "missing" (some "t1") "T"
      (by decide)).2.1 rfl

theorem resolveSubmittedQuestion_error_cases (db : SessionStore)
    (session : CandidateSession) (qid : String) (e : PlatformError)
    (h : resolveSubmittedQuestion db session qid = Except.error e) :
    e = notFoundError "Question" ∨
    e = validationError "Invalid question data in session" := by
  simp only [resolveSubmittedQuestion] at h
  split at h
  · split at h
    · split at h
      · exact Except.noConfusion h
      · injection h with h1
        exact Or.inr h1.symm
    · split at h
      · exact Except.noConfusion h
      · injection h with h1
        exact Or.inl h1.symm
  · split at h
    · exact Except.noConfusion h
    · injection h with h1
      exact Or.inl h1.symm

/-- Claim C6 (amended): a duplicate submission for an already-answered
question id on an in-progress session is never accepted - no second log
entry is appended and no write is performed - and it is never rejected
with the 409 ConflictError state-conflict class the platform declares.
Because the duplicate guard runs only after question resolution, the
error is the already-answered validation error (HTTP 400,
VALIDATION_ERROR) exactly when the submitted question id still resolves,
and otherwise the resolution failure itself: 404 Question not found
(the ordinary duplicate retry, since the accepted first answer cleared
the transient currentQuestion and adaptive questions are not stored in
the questions table) or the invalid-question-data validation error. -/
theorem submitAnswer_duplicate_rejected
    (db : SessionStore) (sid : String) (tid : Option String) (body : AnswerBody)
    (now : String) (qid : String) (ans : AnswerValue) (ts : ℚ)
    (session : CandidateSession)
    (hsid : sid ≠ "")
    (hq : body.questionId = some qid) (hqne : qid ≠ "")
    (ha : body.answer = some ans) (ht : body.timeSpentSeconds = some ts)
    (hfind : findSessionById db sid tid = some session)
    (hstat : session.status = SessionStatus.IN_PROGRESS)
    (hten : jsTrim session.tenantId ≠ "")
    (hdup : (session.questionsAnswered.any fun r => r.questionId == qid) = true) :
    (∃ e, submitAnswer db (some sid) tid body now = Except.error e ∧
       e.statusCode ≠ 409 ∧ e.code ≠ "CONFLICT_ERROR") ∧
    (∀ result, submitAnswer db (some sid) tid body now ≠ Except.ok result) ∧
    (∀ q, resolveSubmittedQuestion db session qid = Except.ok q →
       submitAnswer db (some sid) tid body now =
         Except.error (validationError "Question already answered")) ∧
    (∀ e, resolveSubmittedQuestion db session qid = Except.error e →
       submitAnswer db (some sid) tid body now = Except.error e ∧
       (e = notFoundError "Question" ∨
        e = validationError "Invalid question data in session")) := by
  cases hres : resolveSubmittedQuestion db session qid with
  | ok q =>
    have he : submitAnswer db (some sid) tid body now =
        Except.error (validationError "Question already answered") := by
      simp only [submitAnswer]
      rw [if_neg hsid, hq, ha, ht]
      simp only [if_neg hqne]
      rw [hfind]
      simp only [hstat, hres]
      simp [hten, hdup]
    refine ⟨⟨_, he, by decide, by decide⟩, fun result h => ?_, fun q2 _ => he,
      fun e hcontra => ?_⟩
    · rw [he] at h
      exact Except.noConfusion h
    · exact Except.noConfusion hcontra
  | error e0 =>
    have he : submitAnswer db (some sid) tid body now = Except.error e0 := by
      simp only [submitAnswer]
      rw [if_neg hsid, hq, ha, ht]
      simp only [if_neg hqne]
      rw [hfind]
      simp only [hstat, hres]
      simp [hten]
    have hcases := resolveSubmittedQuestion_error_cases db session qid e0 hres
    refine ⟨⟨e0, he, ?_, ?_⟩, fun result h => ?_, fun q2 hcontra => ?_, fun e he2 => ?_⟩
    · rcases hcases with h1 | h1 <;> rw [h1] <;> decide
    · rcases hcases with h1 | h1 <;> rw [h1] <;> decide
    · rw [he] at h
      exact Except.noConfusion h
    · exact Except.noConfusion hcontra
    · injection he2 with h1
      subst h1
      exact ⟨he, hcases⟩

/-- Counterexample for C6: a duplicate submission is not rejected with a
state-conflict error (statusCode 409): when the question still resolves
it yields the 400 already-answered validation error, and on the ordinary
duplicate retry (transient question cleared, not in the questions table)
it yields the 404 not-found error. -/
theorem submitAnswer_duplicate_cex :
    submitAnswer c6db (some "s6") (some "t1") c6body "T" =
      Except.error (validationError "Question already answered") ∧
    (validationError "Question already answered").statusCode = 400 ∧
    (conflictError "Resource conflict").statusCode = 409 ∧
    submitAnswer c6bdb (some "s6b") (some "t1") c6body "T" =
      Except.error (notFoundError "Question") := by
  exact ⟨rfl, rfl, rfl, rfl⟩

/-- Witness for C6: the duplicate-rejection theorem applied to both
concrete scenarios - the resolvable duplicate gets the already-answered
validation error, the ordinary retry gets question-not-found. -/
theorem submitAnswer_duplicate_rejected_witness :
    (c6session.questionsAnswered.any fun r => r.questionId == "q1") = true ∧
    submitAnswer c6db (some "s6") (some "t1") c6body "T" =
      Except.error (validationError "Question already answered") ∧
    submitAnswer c6bdb (some "s6b") (some "t1") c6body "T" =
      Except.error (notFoundError "Question") := by
  refine ⟨rfl, ?_, ?_⟩
  · exact (submitAnswer_duplicate_rejected c6db "s6" (some "t1") c6body "T" "q1"
      (AnswerValue.str "x") 5 c6session (by decide) rfl (by decide) rfl rfl rfl rfl
      (by decide) rfl).2.2.1
      { questionId := "q1", questionText := "Compute x", questionType := "MCQ",
        knowledgeArea := KnowledgeArea.PROGRAMMING_LANGUAGE, difficulty := 3,
        correctAnswer := AnswerValue.str "x", explanation := "by definition" } rfl
  · exact ((submitAnswer_duplicate_rejected c6bdb "s6b" (some "t1") c6body "T" "q1"
      (AnswerValue.str "x") 5 c6bsession (by decide) rfl (by decide) rfl rfl rfl rfl
      (by decide) rfl).2.2.2 (notFoundError "Question") rfl).1

/-- Claim C2 (amended): when an answer is accepted, the handler re-runs
the Difficulty Adjuster for every area that appears in the updated answer
log - not only the answered area - each from its previously stored
difficulty (default 3) over the updated log, while areas that appear
nowhere in the log keep their stored difficulty; consequently an area
other than the answered one can change. -/
theorem submitAnswer_adjusts_all_logged_areas
    (db : SessionStore) (sid : String) (tid : Option String) (body : AnswerBody)
    (now : String) (qid : String) (ans : AnswerValue) (ts : ℚ)
    (session : CandidateSession) (q : StoredQuestion)
    (hsid : sid ≠ "")
    (hq : body.questionId = some qid) (hqne : qid ≠ "")
    (ha : body.answer = some ans) (ht : body.timeSpentSeconds = some ts)
    (hfind : findSessionById db sid tid = some session)
    (hstat : session.status = SessionStatus.IN_PROGRESS)
    (hten : jsTrim session.tenantId ≠ "")
    (hres : resolveSubmittedQuestion db session qid = Except.ok q)
    (hnodup : (session.questionsAnswered.any fun r => r.questionId == qid) = false) :
    ∃ s2 resp, submitAnswer db (some sid) tid body now = Except.ok (s2, resp) ∧
      s2.questionsAnswered = session.questionsAnswered ++
        [{ questionId := qid, knowledgeArea := q.knowledgeArea, difficulty := q.difficulty,
           answer := ans, isCorrect := checkAnswer ans q.correctAnswer,
           timeSpentSeconds := ts, answeredAt := now }] ∧
      (∀ b, s2.currentDifficulty b =
        if s2.questionsAnswered.any fun r => r.knowledgeArea == b then
          some (calculateNextDifficulty (jsOrInt (session.currentDifficulty b) 3) b
            s2.questionsAnswered)
        else session.currentDifficulty b) ∧
      (∀ b, (s2.questionsAnswered.any fun r => r.knowledgeArea == b) = false →
        s2.currentDifficulty b = session.currentDifficulty b) := by
  have he : submitAnswer db (some sid) tid body now = Except.ok
      ({ session with
          questionsAnswered := session.questionsAnswered ++
            [{ questionId := qid, knowledgeArea := q.knowledgeArea, difficulty := q.difficulty,
               answer := ans, isCorrect := checkAnswer ans q.correctAnswer,
               timeSpentSeconds := ts, answeredAt := now }],
          currentDifficulty := updateSessionDifficulties
            { session with
                questionsAnswered := session.questionsAnswered ++
                  [{ questionId := qid, knowledgeArea := q.knowledgeArea,
                     difficulty := q.difficulty, answer := ans,
                     isCorrect := checkAnswer ans q.correctAnswer,
                     timeSpentSeconds := ts, answeredAt := now }] },
          currentQuestion := none },
       { isCorrect := checkAnswer ans q.correctAnswer,
         explanation := q.explanation,
         nextQuestionAvailable := decide (((session.questionsAnswered.length + 1 : ℕ) : ℚ) <
           jsOrNum ((db.assessments (jsTrim session.tenantId) session.assessmentId).bind
             fun a => a.maxQuestions) 10),
         questionsAnswered := session.questionsAnswered.length + 1,
         maxQuestions := jsOrNum ((db.assessments (jsTrim session.tenantId)
           session.assessmentId).bind fun a => a.maxQuestions) 10 }) := by
    simp only [submitAnswer]
    rw [if_neg hsid, hq, ha, ht]
    simp only [if_neg hqne]
    rw [hfind]
    simp only [hstat, hres]
    simp [hten, hnodup]
  refine ⟨_, _, he, rfl, fun b => ?_, fun b hb => ?_⟩
  · simp [updateSessionDifficulties]
  · simp only [updateSessionDifficulties] at *
    simp [hb]

/-- Counterexample for C2: answering a programming question on a session
whose log holds three correct algorithms answers changes the stored
algorithms difficulty from 4 to 5, although the answered area is
programming. -/
theorem submitAnswer_crossArea_cex :
    (match submitAnswer c2db (some "s2") (some "t1") c2body "T" with
     | Except.ok (s2, _) => s2.currentDifficulty KnowledgeArea.ALGORITHMS_DATA_STRUCTURES
     | Except.error _ => none) = some 5 ∧
    c2session.currentDifficulty KnowledgeArea.ALGORITHMS_DATA_STRUCTURES = some 4 ∧
    c2body.questionId = some "q4" ∧
    c2question.knowledgeArea = KnowledgeArea.PROGRAMMING_LANGUAGE := by
  refine ⟨?_, rfl, rfl, rfl⟩
  have hmatch : (match submitAnswer c2db (some "s2") (some "t1") c2body "T" with
      | Except.ok (s2, _) => s2.currentDifficulty KnowledgeArea.ALGORITHMS_DATA_STRUCTURES
      | Except.error _ => none) =
      some (calculateNextDifficulty 4 KnowledgeArea.ALGORITHMS_DATA_STRUCTURES
        (c2session.questionsAnswered ++ [c2newResponse])) := rfl
  have ha : areaLog KnowledgeArea.ALGORITHMS_DATA_STRUCTURES
      (c2session.questionsAnswered ++ [c2newResponse]) = c2session.questionsAnswered := rfl
  have hlen : c2session.questionsAnswered.length = 3 := rfl
  have hacc : lastWindowAccuracy KnowledgeArea.ALGORITHMS_DATA_STRUCTURES
      (c2session.questionsAnswered ++ [c2newResponse]) = ((3 : ℕ) : ℚ) / 3 := rfl
  rw [hmatch, calculateNextDifficulty_eq]
  rw [if_neg (by rw [ha, hlen]; norm_num)]
  rw [if_pos ⟨by rw [hacc]; norm_num, by norm_num⟩]
  norm_num

/-- Witness for C2: the amended characterization applied to the concrete
cross-area scenario. -/
theorem submitAnswer_adjusts_all_logged_areas_witness :
    findSessionById c2db "s2" (some "t1") = some c2session ∧
    ∃ s2 resp, submitAnswer c2db (some "s2") (some "t1") c2body "T" =
      Except.ok (s2, resp) := by
  refine ⟨rfl, ?_⟩
  obtain ⟨s2, resp, he, -, -, -⟩ :=
    submitAnswer_adjusts_all_logged_areas c2db "s2" (some "t1") c2body "T" "q4"
      (AnswerValue.str "x") 5 c2session c2question
      (by decide) rfl (by decide) rfl rfl rfl rfl (by decide) rfl rfl
  exact ⟨s2, resp, he⟩

/-- Claim C10: the question cap is reported, never enforced.  An answer to
a valid not-yet-answered question on an in-progress session is accepted
and appended even when the number of answered questions already reached
the cap - the cap only determines the returned nextQuestionAvailable flag
- and the next-question guard likewise admits the request. -/
theorem submitAnswer_cap_not_enforced
    (db : SessionStore) (sid : String) (tid : Option String) (body : AnswerBody)
    (now : String) (qid : String) (ans : AnswerValue) (ts : ℚ)
    (session : CandidateSession) (q : StoredQuestion)
    (hsid : sid ≠ "")
    (hq : body.questionId = some qid) (hqne : qid ≠ "")
    (ha : body.answer = some ans) (ht : body.timeSpentSeconds = some ts)
    (hfind : findSessionById db sid tid = some session)
    (hstat : session.status = SessionStatus.IN_PROGRESS)
    (hten : jsTrim session.tenantId ≠ "")
    (hres : resolveSubmittedQuestion db session qid = Except.ok q)
    (hnodup : (session.questionsAnswered.any fun r => r.questionId == qid) = false)
    (hcap : jsOrNum ((db.assessments (jsTrim session.tenantId) session.assessmentId).bind
        fun a => a.maxQuestions) 10 ≤ (session.questionsAnswered.length : ℚ)) :
    (∃ s2 resp, submitAnswer db (some sid) tid body now = Except.ok (s2, resp) ∧
      s2.questionsAnswered.length = session.questionsAnswered.length + 1 ∧
      resp.questionsAnswered = session.questionsAnswered.length + 1 ∧
      resp.nextQuestionAvailable = false) ∧
    getNextQuestionGuard db (some sid) tid = Except.ok session := by
  constructor
  · have he : submitAnswer db (some sid) tid body now = Except.ok
        ({ session with
            questionsAnswered := session.questionsAnswered ++
              [{ questionId := qid, knowledgeArea := q.knowledgeArea, difficulty := q.difficulty,
                 answer := ans, isCorrect := checkAnswer ans q.correctAnswer,
                 timeSpentSeconds := ts, answeredAt := now }],
            currentDifficulty := updateSessionDifficulties
              { session with
                  questionsAnswered := session.questionsAnswered ++
                    [{ questionId := qid, knowledgeArea := q.knowledgeArea,
                       difficulty := q.difficulty, answer := ans,
                       isCorrect := checkAnswer ans q.correctAnswer,
                       timeSpentSeconds := ts, answeredAt := now }] },
            currentQuestion := none },
         { isCorrect := checkAnswer ans q.correctAnswer,
           explanation := q.explanation,
           nextQuestionAvailable := decide (((session.questionsAnswered.length + 1 : ℕ) : ℚ) <
             jsOrNum ((db.assessments (jsTrim session.tenantId) session.assessmentId).bind
               fun a => a.maxQuestions) 10),
           questionsAnswered := session.questionsAnswered.length + 1,
           maxQuestions := jsOrNum ((db.assessments (jsTrim session.tenantId)
             session.assessmentId).bind fun a => a.maxQuestions) 10 }) := by
      simp only [submitAnswer]
      rw [if_neg hsid, hq, ha, ht]
      simp only [if_neg hqne]
      rw [hfind]
      simp only [hstat, hres]
      simp [hten, hnodup]
    refine ⟨_, _, he, by simp, rfl, ?_⟩
    have hlt : ¬ (((session.questionsAnswered.length + 1 : ℕ) : ℚ) <
        jsOrNum ((db.assessments (jsTrim session.tenantId) session.assessmentId).bind
          fun a => a.maxQuestions) 10) := by
      push_cast
      push_neg
      calc jsOrNum ((db.assessments (jsTrim session.tenantId) session.assessmentId).bind
            fun a => a.maxQuestions) 10 ≤ (session.questionsAnswered.length : ℚ) := hcap
        _ ≤ (session.questionsAnswered.length : ℚ) + 1 := by linarith
    exact decide_eq_false hlt
  · simp only [getNextQuestionGuard]
    rw [if_neg hsid, hfind]
    simp [hstat]

/-- Witness for C10: the concrete at-cap session (two answered, cap two)
still accepts the pending third answer and reports no further question. -/
theorem submitAnswer_cap_not_enforced_witness :
    jsOrNum ((c10db.assessments (jsTrim c10session.tenantId) c10session.assessmentId).bind
        fun a => a.maxQuestions) 10 ≤ (c10session.questionsAnswered.length : ℚ) ∧
    getNextQuestionGuard c10db (some "s10") (some "t1") = Except.ok c10session := by
  have hcap : jsOrNum ((c10db.assessments (jsTrim c10session.tenantId)
      c10session.assessmentId).bind fun a => a.maxQuestions) 10 ≤
      (c10session.questionsAnswered.length : ℚ) := by
    have : jsOrNum ((c10db.assessments (jsTrim c10session.tenantId)
        c10session.assessmentId).bind fun a => a.maxQuestions) 10 = 2 := rfl
    have h2 : c10session.questionsAnswered.length = 2 := rfl
    rw [this, h2]
    norm_num
  refine ⟨hcap, ?_⟩
  exact (submitAnswer_cap_not_enforced c10db "s10" (some "t1") c10body "T" "q3"
    (AnswerValue.str "x") 5 c10session
    { questionId := "q3", questionText := "Compute x", questionType := "MCQ",
      knowledgeArea := KnowledgeArea.PROGRAMMING_LANGUAGE, difficulty := 3,
      correctAnswer := AnswerValue.str "x", explanation := "by definition" }
    (by decide) rfl (by decide) rfl rfl rfl rfl (by decide) rfl rfl hcap).2

/-- Claim C8 (amended): with the required fields present and a non-empty
mix, assessment creation fails with a validation error when the question
cap lies outside 1..50, or (cap in range) when the percentages do not sum
to 100 within 0.01; when both checks pass the assessment is created - the
initial difficulty is never range-checked and is stored as given
(defaulting to 3 when absent). -/
theorem createAssessment_validation (tenantId : String) (body : CreateAssessmentBody)
    (aid now createdBy : String) (title : String) (role : TargetRole)
    (mix : List KnowledgeAreaConfig)
    (hti : body.title = some title) (htne : title ≠ "")
    (hrole : body.targetRole = some role)
    (hmix : body.knowledgeAreaMix = some mix) (hmne : mix ≠ []) :
    (body.maxQuestions.getD 10 < 1 ∨ 50 < body.maxQuestions.getD 10 →
      createAssessment tenantId body aid now createdBy =
        Except.error (validationError "maxQuestions must be a number between 1 and 50")) ∧
    (¬(body.maxQuestions.getD 10 < 1 ∨ 50 < body.maxQuestions.getD 10) →
      0.01 < |mix.foldl (fun s cfg => s + cfg.percentage) 0 - 100| →
      createAssessment tenantId body aid now createdBy =
        Except.error (validationError "Knowledge area percentages must sum to 100")) ∧
    (¬(body.maxQuestions.getD 10 < 1 ∨ 50 < body.maxQuestions.getD 10) →
      ¬(0.01 < |mix.foldl (fun s cfg => s + cfg.percentage) 0 - 100|) →
      ∃ a, createAssessment tenantId body aid now createdBy = Except.ok a ∧
        a.initialDifficulty = body.initialDifficulty.getD 3 ∧
        a.maxQuestions = some (max 1 (min 50 (body.maxQuestions.getD 10))) ∧
        a.knowledgeAreaMix = mix) := by
  refine ⟨fun hmq => ?_, fun hmq hsum => ?_, fun hmq hsum => ?_⟩
  · simp only [createAssessment]
    rw [hti, hrole, hmix]
    simp only [if_neg htne, if_neg hmne, if_pos hmq]
  · simp only [createAssessment]
    rw [hti, hrole, hmix]
    simp only [if_neg htne, if_neg hmne, if_neg hmq, if_pos hsum]
  · simp only [createAssessment]
    rw [hti, hrole, hmix]
    simp only [if_neg htne, if_neg hmne, if_neg hmq, if_neg hsum]
    exact ⟨_, rfl, rfl, rfl, rfl⟩

/-- Counterexample for C8: a creation request that is valid except for its
initial difficulty of 7 (outside 1..5) is accepted, with the 7 stored on
the created assessment instead of a validation error. -/
theorem createAssessment_difficulty_cex :
    (match createAssessment "t1" c8body "a1" "2024-01-01T00:00:00Z" "u1" with
     | Except.ok a => some a.initialDifficulty
     | Except.error _ => none) = some 7 ∧
    ¬ ((1 : ℤ) ≤ 7 ∧ (7 : ℤ) ≤ 5) := by
  constructor
  · simp only [createAssessment, c8body]
    norm_num
    rw [if_neg (show ¬("Frontend screen" = "") from by decide)]
  · decide

/-- Witness for C8: the amended characterization applied to the concrete
request with initial difficulty 7. -/
theorem createAssessment_validation_witness :
    c8body.title = some "Frontend screen" ∧
    ∃ a, createAssessment "t1" c8body "a1" "N" "u1" = Except.ok a ∧
      a.initialDifficulty = 7 := by
  refine ⟨rfl, ?_⟩
  have hmq : ¬(c8body.maxQuestions.getD 10 < 1 ∨ 50 < c8body.maxQuestions.getD 10) := by
    have h10 : c8body.maxQuestions.getD 10 = 10 := rfl
    rw [h10]
    norm_num
  have hsum : ¬((0.01 : ℚ) <
      |([{ area := KnowledgeArea.PROGRAMMING_LANGUAGE, percentage := 100 }] :
          List KnowledgeAreaConfig).foldl (fun s cfg => s + cfg.percentage) 0 - 100|) := by
    norm_num
  obtain ⟨a, ha1, ha2, -, -⟩ :=
    (createAssessment_validation "t1" c8body "a1" "N" "u1" "Frontend screen"
      { name := "Frontend Dev", seniorityLevel := SeniorityLevel.JUNIOR }
      [{ area := KnowledgeArea.PROGRAMMING_LANGUAGE, percentage := 100 }]
      rfl (by decide) rfl rfl (by decide)).2.2 hmq hsum
  exact ⟨a, ha1, ha2.trans rfl⟩

theorem weightedRandomWalk_mem (r : ℚ) (mix : List KnowledgeAreaConfig) (a : KnowledgeArea)
    (h : weightedRandomWalk r mix = some a) : ∃ cfg ∈ mix, cfg.area = a := by
  induction mix generalizing r with
  | nil => simp [weightedRandomWalk] at h
  | cons cfg rest ih =>
    rw [weightedRandomWalk] at h
    split_ifs at h with hle
    · exact ⟨cfg, List.mem_cons_self _ _, Option.some_injective _ h⟩
    · obtain ⟨c, hc, hca⟩ := ih _ h
      exact ⟨c, List.mem_cons_of_mem _ hc, hca⟩

theorem weightedRandomSelection_mem (r : ℚ) (mix : List KnowledgeAreaConfig) (hne : mix ≠ []) :
    ∃ a, weightedRandomSelection r mix = some a ∧ ∃ cfg ∈ mix, cfg.area = a := by
  unfold weightedRandomSelection
  cases hw : weightedRandomWalk r mix with
  | some a => exact ⟨a, rfl, weightedRandomWalk_mem r mix a hw⟩
  | none =>
    clear hw
    cases mix with
    | nil => exact absurd rfl hne
    | cons cfg rest => exact ⟨cfg.area, rfl, cfg, List.mem_cons_self _ _, rfl⟩

theorem insertionSort_head_max (l : List (KnowledgeArea × ℚ)) (top : KnowledgeArea × ℚ)
    (rest : List (KnowledgeArea × ℚ))
    (h : List.insertionSort deficitGe l = top :: rest) :
    top ∈ l ∧ ∀ y ∈ l, y.2 ≤ top.2 := by
  have hperm := List.perm_insertionSort deficitGe l
  rw [h] at hperm
  have hsorted := List.sorted_insertionSort deficitGe l
  rw [h] at hsorted
  constructor
  · exact hperm.mem_iff.mp (List.mem_cons_self _ _)
  · intro y hy
    have hy2 : y ∈ top :: rest := hperm.mem_iff.mpr hy
    rcases List.mem_cons.mp hy2 with h1 | h2
    · rw [h1]
    · exact List.rel_of_sorted_cons hsorted y h2

theorem underTargetAreas_mem (mix : List KnowledgeAreaConfig)
    (qa : List QuestionResponse) (p : KnowledgeArea × ℚ)
    (h : p ∈ underTargetAreas mix qa) :
    ∃ cfg ∈ mix, cfg.area = p.1 ∧ areaDeficit mix qa cfg = p.2 ∧ 0 < p.2 := by
  unfold underTargetAreas at h
  obtain ⟨hmem, hpos⟩ := List.mem_filter.mp h
  obtain ⟨cfg, hcfg, heq⟩ := List.mem_map.mp hmem
  subst heq
  exact ⟨cfg, hcfg, rfl, rfl, by simpa using hpos⟩

theorem mem_underTargetAreas (mix : List KnowledgeAreaConfig)
    (qa : List QuestionResponse) (cfg : KnowledgeAreaConfig) (hcfg : cfg ∈ mix)
    (hpos : 0 < areaDeficit mix qa cfg) :
    (cfg.area, areaDeficit mix qa cfg) ∈ underTargetAreas mix qa := by
  unfold underTargetAreas
  exact List.mem_filter.mpr ⟨List.mem_map.mpr ⟨cfg, hcfg, rfl⟩, by simpa using hpos⟩

/-- Claim C3: on a non-empty mix the Selector always returns an area of
the mix, and whenever some configured area has strictly positive deficit
the returned area is one of maximal deficit (and itself under target). -/
theorem selectNextKnowledgeArea_spec (mix : List KnowledgeAreaConfig)
    (qa : List QuestionResponse) (r : ℚ) (hne : mix ≠ []) :
    ∃ a, selectNextKnowledgeArea mix qa r = some a ∧
      (∃ cfg ∈ mix, cfg.area = a) ∧
      ((∃ cfg ∈ mix, 0 < areaDeficit mix qa cfg) →
        ∃ cfg ∈ mix, cfg.area = a ∧ 0 < areaDeficit mix qa cfg ∧
          ∀ cfg2 ∈ mix, areaDeficit mix qa cfg2 ≤ areaDeficit mix qa cfg) := by
  unfold selectNextKnowledgeArea
  cases hs : List.insertionSort deficitGe (underTargetAreas mix qa) with
  | nil =>
    have hut : underTargetAreas mix qa = [] := by
      have hp := List.perm_insertionSort deficitGe (underTargetAreas mix qa)
      rw [hs] at hp
      exact (hp.symm).eq_nil
    obtain ⟨a, hsel, hmem⟩ := weightedRandomSelection_mem r mix hne
    refine ⟨a, hsel, hmem, fun hex => ?_⟩
    obtain ⟨cfg, hcfg, hpos⟩ := hex
    have := mem_underTargetAreas mix qa cfg hcfg hpos
    rw [hut] at this
    exact absurd this (List.not_mem_nil _)
  | cons top rest =>
    obtain ⟨htop, hmax⟩ := insertionSort_head_max _ top rest hs
    obtain ⟨cfg, hcfg, hcfga, hcfgd, hpos⟩ := underTargetAreas_mem mix qa top htop
    refine ⟨top.1, rfl, ⟨cfg, hcfg, hcfga⟩, fun _ => ⟨cfg, hcfg, hcfga, ?_, ?_⟩⟩
    · rw [hcfgd]
      exact hpos
    · intro cfg2 hcfg2
      rw [hcfgd]
      by_cases h2 : 0 < areaDeficit mix qa cfg2
      · exact hmax _ (mem_underTargetAreas mix qa cfg2 hcfg2 h2)
      · push_neg at h2
        exact h2.trans (le_of_lt (hcfgd ▸ hpos))

/-- Witness for C3: with the concrete 60/40 mix and five answers all in
the first area, the Selector returns an area of the mix. -/
theorem selectNextKnowledgeArea_spec_witness :
    c3mix ≠ [] ∧
    ∃ a, selectNextKnowledgeArea c3mix c3log 0 = some a ∧ ∃ cfg ∈ c3mix, cfg.area = a := by
  refine ⟨by decide, ?_⟩
  obtain ⟨a, h1, h2, -⟩ := selectNextKnowledgeArea_spec c3mix c3log 0 (by decide)
  exact ⟨a, h1, h2⟩

theorem roleFit_foldl_eq (areaScores : KnowledgeArea → Option AreaScoreData)
    (role : TargetRole) (mix : List KnowledgeAreaConfig) (a b : ℚ) :
    mix.foldl
      (fun (acc : ℚ × ℚ) cfg =>
        match areaScores cfg.area with
        | some s =>
          if 0 < s.questionsAnswered then
            (acc.1 + s.score * roleBoostedWeight role cfg, acc.2 + roleBoostedWeight role cfg)
          else acc
        | none => acc) (a, b) =
    (a + roleFitNumerator areaScores role mix, b + roleFitDenominator areaScores role mix) := by
  induction mix generalizing a b with
  | nil => simp [roleFitNumerator, roleFitDenominator]
  | cons cfg rest ih =>
    simp only [List.foldl_cons, roleFitNumerator, roleFitDenominator, List.map_cons,
      List.sum_cons]
    cases hsc : areaScores cfg.area with
    | none =>
      rw [ih]
      simp only [roleFitNumerator, roleFitDenominator, Prod.mk.injEq]
      constructor <;> ring
    | some s =>
      by_cases hq : 0 < s.questionsAnswered
      · simp only [if_pos hq]
        rw [ih]
        simp only [roleFitNumerator, roleFitDenominator, Prod.mk.injEq]
        constructor <;> ring
      · simp only [if_neg hq]
        rw [ih]
        simp only [roleFitNumerator, roleFitDenominator, Prod.mk.injEq]
        constructor <;> ring

theorem roleFit_sums_bounds (areaScores : KnowledgeArea → Option AreaScoreData)
    (role : TargetRole) (mix : List KnowledgeAreaConfig)
    (hscore : ∀ cfg ∈ mix, ∀ s, areaScores cfg.area = some s → 0 ≤ s.score ∧ s.score ≤ 100)
    (hpct : ∀ cfg ∈ mix, 0 ≤ cfg.percentage) :
    0 ≤ roleFitDenominator areaScores role mix ∧
    0 ≤ roleFitNumerator areaScores role mix ∧
    roleFitNumerator areaScores role mix ≤ 100 * roleFitDenominator areaScores role mix := by
  induction mix with
  | nil => simp [roleFitNumerator, roleFitDenominator]
  | cons cfg rest ih =>
    have hw : 0 ≤ roleBoostedWeight role cfg := by
      have hp := hpct cfg (List.mem_cons_self _ _)
      unfold roleBoostedWeight
      split_ifs <;> positivity
    obtain ⟨ih1, ih2, ih3⟩ :=
      ih (fun c hc s hs => hscore c (List.mem_cons_of_mem _ hc) s hs)
        (fun c hc => hpct c (List.mem_cons_of_mem _ hc))
    simp only [roleFitNumerator, roleFitDenominator, List.map_cons, List.sum_cons]
    simp only [roleFitNumerator, roleFitDenominator] at ih1 ih2 ih3
    cases hsc : areaScores cfg.area with
    | none =>
      simp only [zero_add]
      exact ⟨ih1, ih2, ih3⟩
    | some s =>
      by_cases hq : 0 < s.questionsAnswered
      · obtain ⟨hs0, hs100⟩ := hscore cfg (List.mem_cons_self _ _) s hsc
        simp only [if_pos hq]
        have hsw : s.score * roleBoostedWeight role cfg ≤ 100 * roleBoostedWeight role cfg :=
          mul_le_mul_of_nonneg_right hs100 hw
        refine ⟨add_nonneg hw ih1, add_nonneg (mul_nonneg hs0 hw) ih2, ?_⟩
        rw [mul_add]
        exact add_le_add hsw ih3
      · simp only [if_neg hq, zero_add]
        exact ⟨ih1, ih2, ih3⟩

theorem jsRound_bounds (x : ℚ) (h0 : 0 ≤ x) (h100 : x ≤ 100) :
    0 ≤ jsRound x ∧ jsRound x ≤ 100 := by
  unfold jsRound
  constructor
  · refine Int.le_floor.mpr ?_
    push_cast
    linarith
  · have hf : (⌊x + 1 / 2⌋ : ℚ) ≤ x + 1 / 2 := Int.floor_le _
    have h2 : ((⌊x + 1 / 2⌋ : ℤ) : ℚ) < ((101 : ℤ) : ℚ) := by push_cast; linarith
    have h3 : (⌊x + 1 / 2⌋ : ℤ) < 101 := by exact_mod_cast h2
    omega

theorem calculateRoleFitScore_closedForm
    (areaScores : KnowledgeArea → Option AreaScoreData) (role : TargetRole)
    (mix : List KnowledgeAreaConfig)
    (hscore : ∀ cfg ∈ mix, ∀ s, areaScores cfg.area = some s → 0 ≤ s.score ∧ s.score ≤ 100)
    (hpct : ∀ cfg ∈ mix, 0 ≤ cfg.percentage) :
    calculateRoleFitScore areaScores role mix =
      jsRound (roleFitNumerator areaScores role mix / roleFitDenominator areaScores role mix) ∧
    0 ≤ calculateRoleFitScore areaScores role mix ∧
    calculateRoleFitScore areaScores role mix ≤ 100 := by
  obtain ⟨hden, hnum, hle⟩ := roleFit_sums_bounds areaScores role mix hscore hpct
  have hformula : calculateRoleFitScore areaScores role mix =
      if roleFitDenominator areaScores role mix = 0 then 0
      else jsRound (min 100 (max 0 (roleFitNumerator areaScores role mix /
        roleFitDenominator areaScores role mix))) := by
    simp only [calculateRoleFitScore]
    rw [roleFit_foldl_eq]
    simp only [zero_add]
  by_cases hD : roleFitDenominator areaScores role mix = 0
  · have hN : roleFitNumerator areaScores role mix = 0 := by
      have h0 : roleFitNumerator areaScores role mix ≤ 0 := by
        have := hle
        rw [hD] at this
        simpa using this
      exact le_antisymm h0 hnum
    have hjr : jsRound ((0 : ℚ) / 0) = 0 := by
      rw [zero_div]
      unfold jsRound
      rw [Int.floor_eq_iff]
      constructor <;> norm_num
    rw [hformula, if_pos hD, hD, hN, hjr]
    exact ⟨rfl, le_refl 0, by norm_num⟩
  · have hDpos : 0 < roleFitDenominator areaScores role mix :=
      lt_of_le_of_ne hden (Ne.symm hD)
    have hq0 : 0 ≤ roleFitNumerator areaScores role mix /
        roleFitDenominator areaScores role mix := div_nonneg hnum hden
    have hq100 : roleFitNumerator areaScores role mix /
        roleFitDenominator areaScores role mix ≤ 100 := by
      rw [div_le_iff₀ hDpos]
      linarith
    rw [hformula, if_neg hD, max_eq_right hq0, min_eq_right hq100]
    exact ⟨rfl, (jsRound_bounds _ hq0 hq100).1, (jsRound_bounds _ hq0 hq100).2⟩

theorem c4scores_bounds :
    ∀ cfg ∈ c4mix, ∀ s, c4scores cfg.area = some s → 0 ≤ s.score ∧ s.score ≤ 100 := by
  intro cfg hcfg s hs
  fin_cases hcfg <;>
    · simp only [c4scores] at hs
      obtain rfl := (Option.some_injective _ hs).symm
      norm_num

theorem c4mix_nonneg : ∀ cfg ∈ c4mix, 0 ≤ cfg.percentage := by
  intro cfg hcfg
  fin_cases hcfg <;> norm_num

theorem c4_numerator_value : roleFitNumerator c4scores c4role c4mix = 501 / 5 := by
  simp only [roleFitNumerator, c4mix, c4scores, c4role, roleBoostedWeight, List.map_cons,
    List.map_nil, List.sum_cons, List.sum_nil]
  norm_num
  simp only [show (KnowledgeArea.ALGORITHMS_DATA_STRUCTURES =
      KnowledgeArea.SYSTEM_SCENARIO_DESIGN) = False from by simp,
    show (KnowledgeArea.QUANTITATIVE_MATH = KnowledgeArea.SYSTEM_SCENARIO_DESIGN) = False from
      by simp,
    show (KnowledgeArea.QUANTITATIVE_MATH = KnowledgeArea.ALGORITHMS_DATA_STRUCTURES) = False from
      by simp, if_false]
  norm_num

theorem c4_denominator_value : roleFitDenominator c4scores c4role c4mix = 129 / 100 := by
  simp only [roleFitDenominator, c4mix, c4scores, c4role, roleBoostedWeight, List.map_cons,
    List.map_nil, List.sum_cons, List.sum_nil]
  norm_num
  simp only [show (KnowledgeArea.ALGORITHMS_DATA_STRUCTURES =
      KnowledgeArea.SYSTEM_SCENARIO_DESIGN) = False from by simp,
    show (KnowledgeArea.QUANTITATIVE_MATH = KnowledgeArea.SYSTEM_SCENARIO_DESIGN) = False from
      by simp,
    show (KnowledgeArea.QUANTITATIVE_MATH = KnowledgeArea.ALGORITHMS_DATA_STRUCTURES) = False from
      by simp, if_false]
  norm_num

theorem c4_overall_value : calculateWeightedScore c4scores c4mix = 75 := by
  simp only [calculateWeightedScore, c4mix, c4scores, List.foldl_cons, List.foldl_nil]
  norm_num

/-- Claim C4: the role-fit score is the weighted mean of the per-area
scores over answered areas with the seniority-boosted weights (1.5 on the
systems area and 1.3 on the algorithms area for SENIOR/LEAD, 1.5 on the
programming area and 1.3 on the analytical area otherwise), renormalized
by the boosted weight sum and rounded, staying within 0..100; on the
worked SENIOR example (systems 90, algorithms 80, other 50 with mix
40/30/30) it exceeds the unweighted overall score. -/
theorem calculateRoleFitScore_spec
    (areaScores : KnowledgeArea → Option AreaScoreData) (role : TargetRole)
    (mix : List KnowledgeAreaConfig)
    (hscore : ∀ cfg ∈ mix, ∀ s, areaScores cfg.area = some s → 0 ≤ s.score ∧ s.score ≤ 100)
    (hpct : ∀ cfg ∈ mix, 0 ≤ cfg.percentage) :
    calculateRoleFitScore areaScores role mix =
      jsRound (roleFitNumerator areaScores role mix / roleFitDenominator areaScores role mix) ∧
    0 ≤ calculateRoleFitScore areaScores role mix ∧
    calculateRoleFitScore areaScores role mix ≤ 100 ∧
    calculateWeightedScore c4scores c4mix <
      ((calculateRoleFitScore c4scores c4role c4mix : ℤ) : ℚ) := by
  obtain ⟨h1, h2, h3⟩ := calculateRoleFitScore_closedForm areaScores role mix hscore hpct
  refine ⟨h1, h2, h3, ?_⟩
  have hc4 := (calculateRoleFitScore_closedForm c4scores c4role c4mix
    c4scores_bounds c4mix_nonneg).1
  rw [c4_numerator_value, c4_denominator_value] at hc4
  have hval : jsRound ((501 : ℚ) / 5 / (129 / 100)) = 78 := by
    unfold jsRound
    rw [Int.floor_eq_iff]
    constructor <;> norm_num
  rw [hc4, hval, c4_overall_value]
  norm_num

/-- Witness for C4: the closed form applied at the worked example. -/
theorem calculateRoleFitScore_spec_witness :
    (∀ cfg ∈ c4mix, 0 ≤ cfg.percentage) ∧
    0 ≤ calculateRoleFitScore c4scores c4role c4mix ∧
    calculateWeightedScore c4scores c4mix <
      ((calculateRoleFitScore c4scores c4role c4mix : ℤ) : ℚ) := by
  have h := calculateRoleFitScore_spec c4scores c4role c4mix c4scores_bounds c4mix_nonneg
  exact ⟨c4mix_nonneg, h.2.1, h.2.2.2⟩
